import Mathlib

set_option linter.unusedVariables false

/-!
Verification of the corridor worker's spatial matching, vibe-score
calculation and trend classification, as a shallow embedding in Lean.
JavaScript numbers are modelled as rationals; nullable values as Option;
JS string operations as Lean string/char-list operations.
-/

/-- JS Math.round: round half toward positive infinity. -/
def jsRound (x : ℚ) : ℚ := ((⌊x + 1/2⌋ : ℤ) : ℚ)

/-- Char-list version of startsWith: the first list starts with the second. -/
def charsStartWith : List Char → List Char → Bool
  | _, [] => true
  | [], _ :: _ => false
  | b :: bs, a :: as => a == b && charsStartWith bs as

/-- Char-list contiguous-substring test. -/
def charsContain : List Char → List Char → Bool
  | [], pat => pat.isEmpty
  | b :: bs, pat => charsStartWith (b :: bs) pat || charsContain bs pat

/-- JS s.includes(pat): pat occurs as a contiguous substring of s. -/
def jsIncludes (s pat : String) : Bool := charsContain s.toList pat.toList

/-- JS s.replace(leading-zeros-regexp, empty): drop leading zero characters. -/
def stripLeadingZeros (s : String) : String := ⟨s.toList.dropWhile (fun c => c == '0')⟩

/-- JS s.toLowerCase(), modelled character-wise (ASCII case folding). -/
def strToLower (s : String) : String := ⟨s.toList.map Char.toLower⟩

/-- Segment mile-marker bounds (startMM may be greater than endMM). -/
structure SegmentBounds where
  startMM : ℚ
  endMM : ℚ

/-- Segment thresholds (free-flow travel time in seconds). -/
structure SegmentThresholds where
  freeFlowSeconds : ℚ

/-- Segment configuration (the fields the scoring pipeline reads). -/
structure SegmentConfig where
  bounds : SegmentBounds
  thresholds : SegmentThresholds

/-- A normalized incident with its numeric penalty (shared types). -/
structure NormalizedIncident where
  id : String
  summary : String
  penalty : ℚ

/-- Reconciled per-segment data consumed by the score calculator. -/
structure SegmentData where
  segment : SegmentConfig
  travelTimeSeconds : Option ℚ
  impliedSpeedMph : Option ℚ
  speedAnomalyDetected : Bool
  incidents : List NormalizedIncident
  roadCondition : Option String
  weatherSurface : Option String

/-- Result of the vibe calculation. -/
structure VibeResult where
  score : ℚ
  flowScore : ℚ
  incidentPenalty : ℚ
  weatherPenalty : ℚ
  summary : String

/-- Fixed penalty constants (shared constants module). -/
structure VibePenalties where
  LANE_CLOSURE : ℚ
  ROAD_CLOSURE : ℚ
  ICY_CONDITIONS : ℚ

/-- VIBE_PENALTIES = \x7b LANE_CLOSURE: 2, ROAD_CLOSURE: 5, ICY_CONDITIONS: 1 \x7d. -/
def VIBE_PENALTIES : VibePenalties :=
  { LANE_CLOSURE := 2, ROAD_CLOSURE := 5, ICY_CONDITIONS := 1 }

/-- Speed anomaly threshold (mph). -/
def MAX_REASONABLE_SPEED_MPH : ℚ := 85

/-- calculateFlowScore from vibe/calculator.ts. -/
def calculateFlowScore (currentTravelTime : Option ℚ) (freeFlowTravelTime : ℚ)
    (speedAnomalyDetected : Bool) : ℚ :=
  if speedAnomalyDetected then 10
  else
    match currentTravelTime with
    | none => 5
    | some t =>
      if t ≤ 0 then 5
      else
        let ratio := freeFlowTravelTime / t
        if ratio ≥ 9/10 then 10
        else if ratio ≥ 1/2 then 5 + ((ratio - 1/2) / (4/10)) * 5
        else if ratio ≥ 2/10 then 1 + ((ratio - 2/10) / (3/10)) * 4
        else 1

/-- calculateIncidentPenalty from vibe/calculator.ts: reduce summing penalties. -/
def calculateIncidentPenalty (incidents : List NormalizedIncident) : ℚ :=
  incidents.foldl (fun total incident => total + incident.penalty) 0

/-- calculateWeatherPenalty from vibe/calculator.ts. -/
def calculateWeatherPenalty (roadCondition weatherSurface : Option String) : ℚ :=
  let conditions := ((roadCondition.map strToLower).getD "") ++ " " ++
    ((weatherSurface.map strToLower).getD "")
  if jsIncludes conditions "icy" || jsIncludes conditions "ice" ||
      jsIncludes conditions "snow" || jsIncludes conditions "frozen" then
    VIBE_PENALTIES.ICY_CONDITIONS
  else 0

/-- generateSummary from vibe/calculator.ts. -/
def generateSummary (score flowScore incidentPenalty weatherPenalty : ℚ)
    (segmentData : SegmentData) : String :=
  if segmentData.speedAnomalyDetected then
    if incidentPenalty > 0 then "Data unclear, but incidents reported. Drive carefully."
    else "Conditions look good, but data may be stale."
  else if score ≥ 9 then "Smooth sailing! Perfect conditions."
  else if score ≥ 7 then
    if weatherPenalty > 0 then "Moving well, but watch for slick spots."
    else "Looking good! Light traffic ahead."
  else if score ≥ 5 then
    if incidentPenalty > 0 then "Expect delays due to incident(s)."
    else "Moderate traffic. Allow extra time."
  else if score ≥ 3 then
    if incidentPenalty ≥ VIBE_PENALTIES.ROAD_CLOSURE then "Major incident ahead. Consider waiting."
    else "Significant slowdowns. Grab dinner first?"
  else
    if incidentPenalty ≥ VIBE_PENALTIES.ROAD_CLOSURE then "Road closure reported. Check alternatives."
    else "Heavy delays. Definitely wait this out."

/-- calculateVibeScore from vibe/calculator.ts. -/
def calculateVibeScore (segmentData : SegmentData) : VibeResult :=
  let flowScore := calculateFlowScore segmentData.travelTimeSeconds
    segmentData.segment.thresholds.freeFlowSeconds segmentData.speedAnomalyDetected
  let incidentPenalty := calculateIncidentPenalty segmentData.incidents
  let weatherPenalty := calculateWeatherPenalty segmentData.roadCondition
    segmentData.weatherSurface
  let score := max 0 (flowScore - incidentPenalty - weatherPenalty)
  let summary := generateSummary score flowScore incidentPenalty weatherPenalty segmentData
  { score := jsRound (score * 10) / 10
    flowScore := flowScore
    incidentPenalty := incidentPenalty
    weatherPenalty := weatherPenalty
    summary := summary }

/-- Normalized mile-marker range (minMM, maxMM). -/
structure MileMarkerRange where
  minMM : ℚ
  maxMM : ℚ

/-- getMileMarkerRange from spatial/matching.ts. -/
def getMileMarkerRange (bounds : SegmentBounds) : MileMarkerRange :=
  { minMM := min bounds.startMM bounds.endMM
    maxMM := max bounds.startMM bounds.endMM }

/-- isMarkerInBounds from spatial/matching.ts. -/
def isMarkerInBounds (marker : ℚ) (bounds : SegmentBounds) : Bool :=
  let r := getMileMarkerRange bounds
  decide (marker ≥ r.minMM) && decide (marker ≤ r.maxMM)

/-- rangesOverlap from spatial/matching.ts. -/
def rangesOverlap (range1 range2 : MileMarkerRange) : Bool :=
  decide (range1.minMM ≤ range2.maxMM) && decide (range1.maxMM ≥ range2.minMM)

/-- routeMatches from spatial/matching.ts: strip a leading I-, US-, CO- or SH-
route-type marker (case-insensitively) from the route name, strip leading zeros
from both sides, then compare exactly. -/
def routeMatches (routeName routeId : String) : Bool :=
  let chars := routeName.toList
  let lchars := chars.map Char.toLower
  let afterType :=
    if charsStartWith lchars ("i-".toList) then chars.drop 2
    else if charsStartWith lchars ("us-".toList) then chars.drop 3
    else if charsStartWith lchars ("co-".toList) then chars.drop 3
    else if charsStartWith lchars ("sh-".toList) then chars.drop 3
    else chars
  let normalizedRoute := stripLeadingZeros ⟨afterType⟩
  let normalizedId := stripLeadingZeros routeId
  normalizedRoute == normalizedId

/-- One entry of a road-condition record's currentConditions array. -/
structure CurrentCondition where
  conditionDescription : String

/-- Properties of a CDOT road-condition record. -/
structure CdotConditionProps where
  routeName : String
  primaryMP : ℚ
  secondaryMP : ℚ
  currentConditions : List CurrentCondition

/-- A CDOT road-condition record. -/
structure CdotCondition where
  properties : CdotConditionProps

/-- CONDITION_SEVERITY table from spatial/matching.ts (higher is worse). -/
def CONDITION_SEVERITY : List (String × ℕ) :=
  [("icy", 5), ("ice", 5), ("snow", 4), ("snow packed", 4), ("snow covered", 4),
   ("slush", 3), ("wet", 2), ("dry", 1)]

/-- Record lookup with JS double-question-mark zero default. -/
def severityLookup (description : String) : ℕ :=
  ((CONDITION_SEVERITY.find? (fun p => p.1 == description)).map Prod.snd).getD 0

/-- Loop body of getWorstCondition: update the running (worstCondition,
worstSeverity) pair with one currentConditions entry. -/
def worstConditionStep (st : Option String × ℕ) (currentCond : CurrentCondition) :
    Option String × ℕ :=
  let description := strToLower currentCond.conditionDescription
  let severity := severityLookup description
  if severity > st.2 then (some currentCond.conditionDescription, severity) else st

/-- getWorstCondition from spatial/matching.ts. -/
def getWorstCondition (conditions : List CdotCondition) : Option String :=
  let st := conditions.foldl
    (fun st condition => condition.properties.currentConditions.foldl worstConditionStep st)
    ((none : Option String), 0)
  if st.2 ≤ 1 then none else st.1

/-- Trend classification values. -/
inductive Trend where
  | IMPROVING
  | WORSENING
  | STABLE
deriving DecidableEq, Repr

/-- One status_buffer row (rolling trend window). -/
structure StatusBuffer where
  id : Option ℕ
  segment_id : String
  speed : Option ℚ
  vibe_score : Option ℚ
  timestamp : ℤ

/-- average from db/operations.ts. -/
def average (nums : List ℚ) : ℚ :=
  if nums.length = 0 then 0
  else nums.foldl (fun a b => a + b) 0 / nums.length

/-- calculateTrend from db/operations.ts: first third of the (most-recent-first)
list against its last third, neutral default 5 for missing scores. -/
def calculateTrend (entries : List StatusBuffer) : Trend :=
  if entries.length < 6 then .STABLE
  else
    let third := entries.length / 3
    let recentEntries := entries.take third
    let olderEntries := entries.drop (entries.length - third)
    let avgRecentVibe := average (recentEntries.map fun e => e.vibe_score.getD 5)
    let avgOlderVibe := average (olderEntries.map fun e => e.vibe_score.getD 5)
    let threshold : ℚ := 1/2
    if avgRecentVibe - avgOlderVibe > threshold then .IMPROVING
    else if avgOlderVibe - avgRecentVibe > threshold then .WORSENING
    else .STABLE

/-- Properties of a CDOT destination record (travel time in seconds). -/
structure CdotDestinationProps where
  name : String
  travelTime : ℚ

/-- A CDOT destination record. -/
structure CdotDestination where
  properties : CdotDestinationProps

/-- JS truthiness coercion used by the aggregator when publishing the implied
speed: impliedSpeedMph is Math.rounded when truthy, and null (also for the
falsy value 0) otherwise. -/
def jsTruthyRound (v : Option ℚ) : Option ℚ :=
  match v with
  | none => none
  | some x => if x = 0 then none else some (jsRound x)

/-- Per-segment body of processSegments from cdot/aggregator.ts: compute travel
time, implied speed and the anomaly flag from the matched destination, then
assemble the SegmentData record. -/
def processSegmentData (segment : SegmentConfig) (destination : Option CdotDestination)
    (segmentIncidents : List NormalizedIncident) (roadCondition : Option String)
    (weatherSurface : Option String) : SegmentData :=
  let distanceMiles := |segment.bounds.startMM - segment.bounds.endMM|
  let state : Option ℚ × Option ℚ × Bool :=
    match destination with
    | none => (none, none, false)
    | some destination =>
      let travelTimeSeconds := destination.properties.travelTime
      if travelTimeSeconds > 0 then
        let impliedSpeedMph := distanceMiles / (travelTimeSeconds / 3600)
        let speedAnomalyDetected := decide (impliedSpeedMph > MAX_REASONABLE_SPEED_MPH)
        (some travelTimeSeconds, some impliedSpeedMph, speedAnomalyDetected)
      else (some travelTimeSeconds, none, false)
  { segment := segment
    travelTimeSeconds := state.1
    impliedSpeedMph := jsTruthyRound state.2.1
    speedAnomalyDetected := state.2.2
    incidents := segmentIncidents
    roadCondition := roadCondition
    weatherSurface := weatherSurface }

/-!
Reference definitions written from the specification's wording, used to state
the refinement-style claims.
-/

/-- Reference normalization from the spec: order the two bounds explicitly. -/
def refNormalizedRange (bounds : SegmentBounds) : ℚ × ℚ :=
  if bounds.startMM ≤ bounds.endMM then (bounds.startMM, bounds.endMM)
  else (bounds.endMM, bounds.startMM)

/-- Reference containment from the spec: normalize first, then test inclusive
containment. -/
def refMarkerInBounds (marker : ℚ) (bounds : SegmentBounds) : Bool :=
  decide ((refNormalizedRange bounds).1 ≤ marker ∧ marker ≤ (refNormalizedRange bounds).2)

/-- Reference overlap from the spec: normalize each range to (min, max), then
test inclusive interval intersection. -/
def refRangesOverlap (a b : SegmentBounds) : Bool :=
  decide ((refNormalizedRange a).1 ≤ (refNormalizedRange b).2 ∧
    (refNormalizedRange a).2 ≥ (refNormalizedRange b).1)

/-- Route-type-marker stripping as described by the spec for routeMatches. -/
def stripRouteTypeMarker (routeName : String) : String :=
  let chars := routeName.toList
  let lchars := chars.map Char.toLower
  if charsStartWith lchars ("i-".toList) then ⟨chars.drop 2⟩
  else if charsStartWith lchars ("us-".toList) then ⟨chars.drop 3⟩
  else if charsStartWith lchars ("co-".toList) then ⟨chars.drop 3⟩
  else if charsStartWith lchars ("sh-".toList) then ⟨chars.drop 3⟩
  else ⟨chars⟩

/-- First component of the reference normalization is the smaller bound. -/
lemma refNormalizedRange_fst (b : SegmentBounds) :
    (refNormalizedRange b).1 = min b.startMM b.endMM := by
  unfold refNormalizedRange
  split_ifs with h
  · rw [min_eq_left h]
  · push_neg at h
    rw [min_eq_right h.le]

/-- Second component of the reference normalization is the larger bound. -/
lemma refNormalizedRange_snd (b : SegmentBounds) :
    (refNormalizedRange b).2 = max b.startMM b.endMM := by
  unfold refNormalizedRange
  split_ifs with h
  · rw [max_eq_right h]
  · push_neg at h
    rw [max_eq_left h.le]

/-- C3: isMarkerInBounds and rangesOverlap agree with the min/max-normalized
reference implementation on all bounds, in either orientation, including
zero-length bounds. -/
theorem marker_and_overlap_match_reference :
    ∀ (marker : ℚ) (b1 b2 : SegmentBounds),
      isMarkerInBounds marker b1 = refMarkerInBounds marker b1 ∧
      rangesOverlap (getMileMarkerRange b1) (getMileMarkerRange b2) =
        refRangesOverlap b1 b2 := by
  intro marker b1 b2
  constructor
  · rw [Bool.eq_iff_iff]
    simp only [isMarkerInBounds, refMarkerInBounds, getMileMarkerRange,
      refNormalizedRange_fst, refNormalizedRange_snd, Bool.and_eq_true,
      decide_eq_true_eq, ge_iff_le]
  · rw [Bool.eq_iff_iff]
    simp only [rangesOverlap, refRangesOverlap, getMileMarkerRange,
      refNormalizedRange_fst, refNormalizedRange_snd, Bool.and_eq_true,
      decide_eq_true_eq, ge_iff_le]

/-- C5: with the speed-anomaly flag set, the flow sub-score is always 10. -/
theorem anomaly_forces_flow_ten :
    ∀ (s : SegmentData), s.speedAnomalyDetected = true →
      (calculateVibeScore s).flowScore = 10 := by
  intro s h
  simp [calculateVibeScore, calculateFlowScore, h]

/-- Witness for anomaly_forces_flow_ten at a concrete SegmentData with a huge
travel time. -/
def anomalySD : SegmentData :=
  { segment := { bounds := { startMM := 228, endMM := 213 },
                 thresholds := { freeFlowSeconds := 600 } }
    travelTimeSeconds := some 99999
    impliedSpeedMph := some 630
    speedAnomalyDetected := true
    incidents := []
    roadCondition := none
    weatherSurface := none }

/-- Concrete instantiation of anomaly_forces_flow_ten. -/
theorem anomaly_forces_flow_ten_witness :
    anomalySD.speedAnomalyDetected = true ∧ (calculateVibeScore anomalySD).flowScore = 10 :=
  ⟨rfl, anomaly_forces_flow_ten anomalySD rfl⟩

/-- C6 counterexample: a raw route value that jointly encodes route and
direction does not match the bare configured route id; no direction letter is
split out by routeMatches. -/
theorem routeMatches_joint_direction_counterexample :
    routeMatches "070W" "070" = false := by decide

/-- C6 (amended): routeMatches strips a leading interstate/US/state route-type
marker case-insensitively and leading zeros from both sides, then compares
exactly; "I-70" matches "070", but a trailing direction letter is not split
out, so "070W" does not match "070". -/
theorem routeMatches_normalization :
    (∀ routeName routeId,
      routeMatches routeName routeId =
        (stripLeadingZeros (stripRouteTypeMarker routeName) == stripLeadingZeros routeId)) ∧
    routeMatches "I-70" "070" = true ∧
    routeMatches "070W" "070" = false := by
  refine ⟨fun routeName routeId => ?_, by decide, by decide⟩
  unfold routeMatches stripRouteTypeMarker
  dsimp only
  split_ifs <;> rfl

/-- C10: a zero-length segment (startMM = endMM) with a positive reported
travel time yields impliedSpeedMph = null (the computed 0 mph is falsy) and no
speed anomaly. -/
theorem zero_length_segment_null_speed :
    ∀ (segment : SegmentConfig) (destination : CdotDestination)
      (incidents : List NormalizedIncident) (rc ws : Option String),
      segment.bounds.startMM = segment.bounds.endMM →
      0 < destination.properties.travelTime →
      (processSegmentData segment (some destination) incidents rc ws).impliedSpeedMph = none ∧
      (processSegmentData segment (some destination) incidents rc ws).speedAnomalyDetected
        = false := by
  intro seg dest incs rc ws h ht
  simp only [processSegmentData, h, sub_self, abs_zero, zero_div, gt_iff_lt, if_pos ht]
  simp [jsTruthyRound, MAX_REASONABLE_SPEED_MPH]

/-- Concrete segment and destination for the zero-length witness. -/
def zeroLenSegment : SegmentConfig :=
  { bounds := { startMM := 220, endMM := 220 }, thresholds := { freeFlowSeconds := 600 } }

/-- Concrete destination reporting a positive travel time. -/
def zeroLenDestination : CdotDestination :=
  { properties := { name := "070W224 Silverplume Chainup to Tunnel (East Entrance)",
                    travelTime := 1200 } }

/-- Concrete instantiation of zero_length_segment_null_speed. -/
theorem zero_length_segment_null_speed_witness :
    zeroLenSegment.bounds.startMM = zeroLenSegment.bounds.endMM ∧
    0 < zeroLenDestination.properties.travelTime ∧
    ((processSegmentData zeroLenSegment (some zeroLenDestination) [] none none).impliedSpeedMph
        = none ∧
      (processSegmentData zeroLenSegment (some zeroLenDestination) [] none none).speedAnomalyDetected
        = false) :=
  ⟨rfl, by norm_num [zeroLenDestination],
    zero_length_segment_null_speed zeroLenSegment zeroLenDestination [] none none rfl
      (by norm_num [zeroLenDestination])⟩

/-- Flow sub-score written directly from the specification's piecewise
description, as a function of ratio = freeFlowSeconds / currentTravelSeconds:
neutral 5 on missing or non-positive travel time, 10 above 0.9, the affine
interpolations of [0.5,0.9) onto [5,10) and [0.2,0.5) onto [1,5), and 1 below
0.2. -/
def specFlowScore (currentTravelSeconds : Option ℚ) (freeFlowSeconds : ℚ) : ℚ :=
  match currentTravelSeconds with
  | none => 5
  | some t =>
    if t ≤ 0 then 5
    else
      let ratio := freeFlowSeconds / t
      if ratio ≥ 9/10 then 10
      else if 1/2 ≤ ratio then 5 + (ratio - 1/2) * ((10 - 5) / (9/10 - 1/2))
      else if 2/10 ≤ ratio then 1 + (ratio - 2/10) * ((5 - 1) / (1/2 - 2/10))
      else 1

/-- C2: without the anomaly flag, the calculator's flow sub-score is exactly
the specification's piecewise interpolation of the travel-time ratio. -/
theorem flowScore_piecewise :
    ∀ (s : SegmentData), s.speedAnomalyDetected = false →
      (calculateVibeScore s).flowScore =
        specFlowScore s.travelTimeSeconds s.segment.thresholds.freeFlowSeconds := by
  intro s h
  show calculateFlowScore s.travelTimeSeconds s.segment.thresholds.freeFlowSeconds
    s.speedAnomalyDetected = _
  rw [h]
  unfold calculateFlowScore specFlowScore
  cases s.travelTimeSeconds with
  | none => rfl
  | some t =>
    simp only [Bool.false_eq_true, if_false, ge_iff_le]
    by_cases ht : t ≤ 0
    · rw [if_pos ht, if_pos ht]
    · rw [if_neg ht, if_neg ht]
      split_ifs with h1 h2 h3
      · rfl
      · ring
      · ring
      · rfl

/-- Concrete SegmentData realizing the spec's ratio-0.25 scenario. -/
def ratioQuarterSD : SegmentData :=
  { segment := { bounds := { startMM := 228, endMM := 213 },
                 thresholds := { freeFlowSeconds := 600 } }
    travelTimeSeconds := some 2400
    impliedSpeedMph := some 22
    speedAnomalyDetected := false
    incidents := []
    roadCondition := none
    weatherSurface := none }

/-- Concrete instantiation of flowScore_piecewise: travel time 2400s against
free flow 600s (ratio 0.25) gives flow sub-score 1 + ((0.25-0.2)/0.3)*4 = 5/3. -/
theorem flowScore_piecewise_witness :
    ratioQuarterSD.speedAnomalyDetected = false ∧
    (calculateVibeScore ratioQuarterSD).flowScore = specFlowScore (some 2400) 600 ∧
    specFlowScore (some 2400) 600 = 5/3 :=
  ⟨rfl, flowScore_piecewise ratioQuarterSD rfl, by norm_num [specFlowScore]⟩

/-- Projection lemma: the flowScore field of calculateVibeScore. -/
lemma vibe_flowScore (s : SegmentData) :
    (calculateVibeScore s).flowScore =
      calculateFlowScore s.travelTimeSeconds s.segment.thresholds.freeFlowSeconds
        s.speedAnomalyDetected := rfl

/-- Projection lemma: the incidentPenalty field of calculateVibeScore. -/
lemma vibe_incidentPenalty (s : SegmentData) :
    (calculateVibeScore s).incidentPenalty = calculateIncidentPenalty s.incidents := rfl

/-- Projection lemma: the weatherPenalty field of calculateVibeScore. -/
lemma vibe_weatherPenalty (s : SegmentData) :
    (calculateVibeScore s).weatherPenalty =
      calculateWeatherPenalty s.roadCondition s.weatherSurface := rfl

/-- Projection lemma: the score field of calculateVibeScore. -/
lemma vibe_score_def (s : SegmentData) :
    (calculateVibeScore s).score =
      jsRound (max 0 (calculateFlowScore s.travelTimeSeconds
        s.segment.thresholds.freeFlowSeconds s.speedAnomalyDetected -
        calculateIncidentPenalty s.incidents -
        calculateWeatherPenalty s.roadCondition s.weatherSurface) * 10) / 10 := rfl

/-- Folding the incident sum from any accumulator splits off the accumulator. -/
lemma foldl_add_penalty (l : List NormalizedIncident) (a : ℚ) :
    l.foldl (fun total incident => total + incident.penalty) a =
      a + l.foldl (fun total incident => total + incident.penalty) 0 := by
  induction l generalizing a with
  | nil => simp
  | cons i l ih =>
    simp only [List.foldl_cons]
    rw [ih (a + i.penalty), ih (0 + i.penalty)]
    ring

/-- The incident penalty of a cons is the head's penalty plus the tail's sum. -/
lemma calculateIncidentPenalty_cons (i : NormalizedIncident) (l : List NormalizedIncident) :
    calculateIncidentPenalty (i :: l) = i.penalty + calculateIncidentPenalty l := by
  unfold calculateIncidentPenalty
  simp only [List.foldl_cons]
  rw [foldl_add_penalty]
  ring

/-- Nonnegative individual penalties give a nonnegative penalty sum. -/
lemma calculateIncidentPenalty_nonneg (l : List NormalizedIncident)
    (h : ∀ i ∈ l, 0 ≤ i.penalty) : 0 ≤ calculateIncidentPenalty l := by
  induction l with
  | nil => norm_num [calculateIncidentPenalty]
  | cons i l ih =>
    rw [calculateIncidentPenalty_cons]
    have h1 := h i (List.mem_cons_self i l)
    have h2 := ih fun j hj => h j (List.mem_cons_of_mem i hj)
    linarith

/-- The weather penalty is never negative. -/
lemma weatherPenalty_nonneg (rc ws : Option String) :
    0 ≤ calculateWeatherPenalty rc ws := by
  unfold calculateWeatherPenalty
  dsimp only
  split_ifs <;> norm_num [VIBE_PENALTIES]

/-- The flow sub-score never exceeds 10. -/
lemma flowScore_le_ten (t : Option ℚ) (f : ℚ) (a : Bool) :
    calculateFlowScore t f a ≤ 10 := by
  unfold calculateFlowScore
  split_ifs with ha
  · norm_num
  · cases t with
    | none => norm_num
    | some t =>
      dsimp only
      split_ifs with h1 h2 h3 h4
      · norm_num
      · norm_num
      · have hlt : f / t < 9/10 := not_le.mp h2
        have key : 5 + ((f / t - 1/2) / (4/10)) * 5 = (f / t) * (25/2) - 5/4 := by ring
        rw [key]
        linarith
      · have hlt : f / t < 1/2 := not_le.mp h3
        have key : 1 + ((f / t - 2/10) / (3/10)) * 4 = (f / t) * (40/3) - 5/3 := by ring
        rw [key]
        linarith
      · norm_num

/-- jsRound is monotone. -/
lemma jsRound_mono {x y : ℚ} (h : x ≤ y) : jsRound x ≤ jsRound y := by
  unfold jsRound
  exact_mod_cast Int.floor_mono (by linarith : x + 1/2 ≤ y + 1/2)

/-- jsRound of a nonnegative rational is nonnegative. -/
lemma jsRound_nonneg {x : ℚ} (h : 0 ≤ x) : 0 ≤ jsRound x := by
  unfold jsRound
  have : (0:ℤ) ≤ ⌊x + 1/2⌋ := Int.le_floor.mpr (by push_cast; linarith)
  exact_mod_cast this

/-- jsRound of a rational at most 100 is at most 100. -/
lemma jsRound_le_hundred {x : ℚ} (h : x ≤ 100) : jsRound x ≤ 100 := by
  unfold jsRound
  have h100 : ⌊(201/2 : ℚ)⌋ = 100 := Int.floor_eq_iff.mpr (by norm_num)
  have h2 : (⌊x + 1/2⌋ : ℤ) ≤ 100 := by
    have := Int.floor_mono (by linarith : x + 1/2 ≤ (201/2 : ℚ))
    omega
  exact_mod_cast h2

/-- The clamp operation written from the spec. -/
def specClamp (x lo hi : ℚ) : ℚ := min hi (max lo x)

/-- Modelled from the spec: NormalizedIncidentSchema is exported by the shared
schemas module but its definition is not under src; per the spec the
normalizer's structured response is validated to a penalty in 0..10 and its
local fallback heuristic only produces the nonnegative penalties 0, 1, 2, 5,
so a NormalizedIncident carries a penalty in [0, 10]. -/
def ValidNormalizedIncident (i : NormalizedIncident) : Prop :=
  0 ≤ i.penalty ∧ i.penalty ≤ 10

/-- C1: for segment data whose incident penalties are nonnegative (the range
the normalizer's 0..10 validation and its fallback heuristic produce), the
final score is the clamp of flowScore - incidentPenalty - weatherPenalty into
[0, 10], rounded to one decimal, and in particular lies in [0, 10]. -/
theorem calculateVibeScore_clamped :
    ∀ (s : SegmentData), (∀ i ∈ s.incidents, ValidNormalizedIncident i) →
      (calculateVibeScore s).score =
        jsRound (specClamp ((calculateVibeScore s).flowScore -
            (calculateVibeScore s).incidentPenalty -
            (calculateVibeScore s).weatherPenalty) 0 10 * 10) / 10 ∧
      0 ≤ (calculateVibeScore s).score ∧ (calculateVibeScore s).score ≤ 10 := by
  intro s hval
  have hpen : ∀ i ∈ s.incidents, 0 ≤ i.penalty := fun i hi => (hval i hi).1
  rw [vibe_score_def, vibe_flowScore, vibe_incidentPenalty, vibe_weatherPenalty]
  have hFle : calculateFlowScore s.travelTimeSeconds s.segment.thresholds.freeFlowSeconds
      s.speedAnomalyDetected ≤ 10 := flowScore_le_ten _ _ _
  have hInn : 0 ≤ calculateIncidentPenalty s.incidents :=
    calculateIncidentPenalty_nonneg _ hpen
  have hWnn : 0 ≤ calculateWeatherPenalty s.roadCondition s.weatherSurface :=
    weatherPenalty_nonneg _ _
  set F := calculateFlowScore s.travelTimeSeconds s.segment.thresholds.freeFlowSeconds
    s.speedAnomalyDetected
  set I := calculateIncidentPenalty s.incidents
  set W := calculateWeatherPenalty s.roadCondition s.weatherSurface
  have hx : F - I - W ≤ 10 := by linarith
  have hclamp : specClamp (F - I - W) 0 10 = max 0 (F - I - W) := by
    unfold specClamp
    rw [min_eq_right (max_le (by norm_num) hx)]
  refine ⟨by rw [hclamp], ?_, ?_⟩
  · have h0 : 0 ≤ max 0 (F - I - W) * 10 :=
      mul_nonneg (le_max_left 0 _) (by norm_num)
    exact div_nonneg (jsRound_nonneg h0) (by norm_num)
  · have hmax : max 0 (F - I - W) ≤ 10 := max_le (by norm_num) hx
    have h100 : max 0 (F - I - W) * 10 ≤ 100 := by linarith
    have := jsRound_le_hundred h100
    rw [div_le_iff₀ (by norm_num : (0:ℚ) < 10)]
    linarith

/-- Concrete SegmentData for the clamp witness: flow 5, incident penalty 2,
weather penalty 1. -/
def clampSD : SegmentData :=
  { segment := { bounds := { startMM := 228, endMM := 213 },
                 thresholds := { freeFlowSeconds := 600 } }
    travelTimeSeconds := some 1200
    impliedSpeedMph := some 45
    speedAnomalyDetected := false
    incidents := [{ id := "inc-1", summary := "Lane closed", penalty := 2 }]
    roadCondition := some "Snow"
    weatherSurface := none }

/-- Concrete instantiation of calculateVibeScore_clamped. -/
theorem calculateVibeScore_clamped_witness :
    (∀ i ∈ clampSD.incidents, ValidNormalizedIncident i) ∧
    ((calculateVibeScore clampSD).score =
        jsRound (specClamp ((calculateVibeScore clampSD).flowScore -
            (calculateVibeScore clampSD).incidentPenalty -
            (calculateVibeScore clampSD).weatherPenalty) 0 10 * 10) / 10 ∧
      0 ≤ (calculateVibeScore clampSD).score ∧ (calculateVibeScore clampSD).score ≤ 10) := by
  have hpen : ∀ i ∈ clampSD.incidents, ValidNormalizedIncident i := by
    intro i hi
    simp only [clampSD, List.mem_singleton] at hi
    subst hi
    constructor <;> norm_num
  exact ⟨hpen, calculateVibeScore_clamped clampSD hpen⟩

/-- C4: prepending an incident with positive penalty never increases the final
score, and the incident penalty total is the sum of the individual penalties
(the new incident's penalty is added to the previous total). -/
theorem score_antitone_in_incidents :
    ∀ (s : SegmentData) (i : NormalizedIncident), 0 < i.penalty →
      (calculateVibeScore { s with incidents := i :: s.incidents }).score ≤
        (calculateVibeScore s).score ∧
      (calculateVibeScore { s with incidents := i :: s.incidents }).incidentPenalty =
        i.penalty + (calculateVibeScore s).incidentPenalty := by
  intro s i hp
  constructor
  · rw [vibe_score_def, vibe_score_def]
    dsimp only
    have h1 : max 0 (calculateFlowScore s.travelTimeSeconds
          s.segment.thresholds.freeFlowSeconds s.speedAnomalyDetected -
          calculateIncidentPenalty (i :: s.incidents) -
          calculateWeatherPenalty s.roadCondition s.weatherSurface) ≤
        max 0 (calculateFlowScore s.travelTimeSeconds
          s.segment.thresholds.freeFlowSeconds s.speedAnomalyDetected -
          calculateIncidentPenalty s.incidents -
          calculateWeatherPenalty s.roadCondition s.weatherSurface) := by
      apply max_le_max (le_refl 0)
      rw [calculateIncidentPenalty_cons]
      linarith
    have h2 := jsRound_mono (mul_le_mul_of_nonneg_right h1 (by norm_num : (0:ℚ) ≤ 10))
    exact (div_le_div_iff_of_pos_right (by norm_num : (0:ℚ) < 10)).mpr h2
  · rw [vibe_incidentPenalty, vibe_incidentPenalty]
    dsimp only
    exact calculateIncidentPenalty_cons i s.incidents

/-- Concrete SegmentData for the monotonicity witness. -/
def monoSD : SegmentData :=
  { segment := { bounds := { startMM := 213, endMM := 218 },
                 thresholds := { freeFlowSeconds := 600 } }
    travelTimeSeconds := some 600
    impliedSpeedMph := some 60
    speedAnomalyDetected := false
    incidents := []
    roadCondition := none
    weatherSurface := none }

/-- The incident added in the monotonicity witness. -/
def monoIncident : NormalizedIncident :=
  { id := "inc-2", summary := "Road closed", penalty := 5 }

/-- Concrete instantiation of score_antitone_in_incidents. -/
theorem score_antitone_in_incidents_witness :
    0 < monoIncident.penalty ∧
    ((calculateVibeScore { monoSD with incidents := monoIncident :: monoSD.incidents }).score ≤
        (calculateVibeScore monoSD).score ∧
      (calculateVibeScore { monoSD with incidents := monoIncident :: monoSD.incidents }).incidentPenalty =
        monoIncident.penalty + (calculateVibeScore monoSD).incidentPenalty) :=
  ⟨by norm_num [monoIncident],
    score_antitone_in_incidents monoSD monoIncident (by norm_num [monoIncident])⟩

/-- Folding addition from any accumulator splits off the accumulator. -/
lemma foldl_add_eq_sum (l : List ℚ) (a : ℚ) :
    l.foldl (fun x y => x + y) a = a + l.sum := by
  induction l generalizing a with
  | nil => simp
  | cons b l ih =>
    simp only [List.foldl_cons, List.sum_cons]
    rw [ih]
    ring

/-- Arithmetic mean written from the spec (empty lists give 0 since rational
division by zero is zero). -/
def specMean (scores : List ℚ) : ℚ := scores.sum / scores.length

/-- The worker's average agrees with the plain mean. -/
lemma average_eq_specMean (l : List ℚ) : average l = specMean l := by
  unfold average specMean
  split_ifs with h
  · rw [List.length_eq_zero.mp h]
    simp
  · rw [foldl_add_eq_sum, zero_add]

/-- Scores of the most recent third of a most-recent-first sample list. -/
def recentThirdScores (entries : List StatusBuffer) (third : ℕ) : List ℚ :=
  (entries.take third).map fun e => e.vibe_score.getD 5

/-- Scores of the oldest third, extracted from the tail end of the list. -/
def oldestThirdScores (entries : List StatusBuffer) (third : ℕ) : List ℚ :=
  ((entries.reverse.take third).reverse).map fun e => e.vibe_score.getD 5

/-- Trend classification rule written from the spec: IMPROVING exactly when
the recent mean exceeds the older mean by more than 0.5, WORSENING exactly in
the symmetric case, STABLE otherwise. -/
def specTrendClassify (recentMean olderMean : ℚ) : Trend :=
  if recentMean - olderMean > 1/2 then .IMPROVING
  else if olderMean - recentMean > 1/2 then .WORSENING
  else .STABLE

/-- C7: calculateTrend returns STABLE below 6 samples, and otherwise compares
the mean score of the most-recent third against the mean of the oldest third
(middle discarded, missing scores defaulting to 5) with threshold 0.5. -/
theorem calculateTrend_thirds_spec :
    ∀ entries, calculateTrend entries =
      if entries.length < 6 then Trend.STABLE
      else specTrendClassify
        (specMean (recentThirdScores entries (entries.length / 3)))
        (specMean (oldestThirdScores entries (entries.length / 3))) := by
  intro entries
  unfold calculateTrend specTrendClassify recentThirdScores oldestThirdScores
  have hrev : (entries.reverse.take (entries.length / 3)).reverse =
      entries.drop (entries.length - entries.length / 3) := by
    rw [← List.rtake_eq_reverse_take_reverse]
    simp [List.rtake]
  rw [hrev]
  by_cases h : entries.length < 6
  · rw [if_pos h, if_pos h]
  · rw [if_neg h, if_neg h]
    dsimp only
    rw [average_eq_specMean, average_eq_specMean]

/-- calculateTrend restated on the bare score column: the function never reads
timestamps (or any other field), it slices the given list positionally. -/
def trendOfScores (scores : List (Option ℚ)) : Trend :=
  if scores.length < 6 then .STABLE
  else
    let third := scores.length / 3
    let recent := scores.take third
    let older := scores.drop (scores.length - third)
    let avgRecent := average (recent.map fun v => v.getD 5)
    let avgOlder := average (older.map fun v => v.getD 5)
    if avgRecent - avgOlder > 1/2 then .IMPROVING
    else if avgOlder - avgRecent > 1/2 then .WORSENING
    else .STABLE

/-- C9 (amended): calculateTrend does not sort or consult timestamps; it is the
purely positional function of the ordered score column, so its result depends
on the order in which samples are supplied. -/
theorem calculateTrend_positional :
    ∀ entries, calculateTrend entries = trendOfScores (entries.map fun e => e.vibe_score) := by
  intro entries
  unfold calculateTrend trendOfScores
  simp only [List.length_map, List.map_take, List.map_drop, List.map_map, Function.comp_def]

/-- Six samples, scores 10,10,5,5,0,0, most recent first. -/
def orderSensitiveEntries : List StatusBuffer :=
  [{ id := none, segment_id := "the-gauntlet", speed := none, vibe_score := some 10, timestamp := 5 },
   { id := none, segment_id := "the-gauntlet", speed := none, vibe_score := some 10, timestamp := 4 },
   { id := none, segment_id := "the-gauntlet", speed := none, vibe_score := some 5, timestamp := 3 },
   { id := none, segment_id := "the-gauntlet", speed := none, vibe_score := some 5, timestamp := 2 },
   { id := none, segment_id := "the-gauntlet", speed := none, vibe_score := some 0, timestamp := 1 },
   { id := none, segment_id := "the-gauntlet", speed := none, vibe_score := some 0, timestamp := 0 }]

/-- C9 counterexample: reversing the sample list (a permutation of it) changes
the classification from IMPROVING to WORSENING, so calculateTrend is not
permutation-invariant. -/
theorem calculateTrend_order_counterexample :
    orderSensitiveEntries.reverse.Perm orderSensitiveEntries ∧
    calculateTrend orderSensitiveEntries = Trend.IMPROVING ∧
    calculateTrend orderSensitiveEntries.reverse = Trend.WORSENING := by
  refine ⟨List.reverse_perm _, ?_, ?_⟩ <;>
    norm_num [orderSensitiveEntries, calculateTrend, average, List.take, List.drop]

/-- Severity assigned to one free-text description: case-insensitive exact
lookup in the ranked vocabulary, 0 when unrecognized. -/
def descSeverity (d : String) : ℕ := severityLookup (strToLower d)

/-- worstConditionStep restated on the bare description string. -/
def stringStep (st : Option String × ℕ) (d : String) : Option String × ℕ :=
  if descSeverity d > st.2 then (some d, descSeverity d) else st

/-- All condition descriptions of a snapshot, in traversal order. -/
def allDescriptions (conditions : List CdotCondition) : List String :=
  (conditions.map fun c => c.properties.currentConditions.map
    fun cc => cc.conditionDescription).flatten

/-- The maximal severity over a list of descriptions. -/
def maxSeverity (ds : List String) : ℕ :=
  ds.foldr (fun d m => max (descSeverity d) m) 0

/-- Reference resolver from the (amended) spec: if the best severity is dry or
unrecognized report absence, otherwise the first-seen description attaining
the maximal severity. -/
def specWorstCondition (ds : List String) : Option String :=
  if maxSeverity ds ≤ 1 then none
  else ds.find? fun d => descSeverity d == maxSeverity ds

/-- maxSeverity unfolding on cons. -/
lemma maxSeverity_cons (d : String) (ds : List String) :
    maxSeverity (d :: ds) = max (descSeverity d) (maxSeverity ds) := rfl

/-- The running-worst loop leaves the state unchanged when no severity in the
list exceeds the current one. -/
lemma stringLoop_stay (ds : List String) : ∀ (c : Option String) (s : ℕ),
    maxSeverity ds ≤ s → ds.foldl stringStep (c, s) = (c, s) := by
  induction ds with
  | nil => intro c s h; rfl
  | cons d ds ih =>
    intro c s h
    rw [maxSeverity_cons] at h
    obtain ⟨h1, h2⟩ := Nat.max_le.mp h
    simp only [List.foldl_cons, stringStep, if_neg (not_lt.mpr h1)]
    exact ih c s h2

/-- When some severity in the list exceeds the current one, the running-worst
loop ends at the first description attaining the maximal severity. -/
lemma stringLoop_find (ds : List String) : ∀ (c : Option String) (s : ℕ),
    s < maxSeverity ds →
    ds.foldl stringStep (c, s) =
      (ds.find? (fun d => descSeverity d == maxSeverity ds), maxSeverity ds) := by
  induction ds with
  | nil =>
    intro c s h
    exact absurd h (Nat.not_lt_zero s)
  | cons d ds ih =>
    intro c s h
    rw [maxSeverity_cons] at h ⊢
    rcases le_or_lt (maxSeverity ds) (descSeverity d) with hle | hlt
    · have hM : max (descSeverity d) (maxSeverity ds) = descSeverity d :=
        Nat.max_eq_left hle
      rw [hM] at h ⊢
      simp only [List.foldl_cons, stringStep, if_pos h]
      rw [stringLoop_stay ds (some d) (descSeverity d) hle]
      simp only [List.find?_cons, beq_self_eq_true]
    · have hM : max (descSeverity d) (maxSeverity ds) = maxSeverity ds :=
        Nat.max_eq_right hlt.le
      rw [hM] at h ⊢
      have hpred : (descSeverity d == maxSeverity ds) = false := by
        simp only [beq_eq_false_iff_ne, ne_eq]
        exact Nat.ne_of_lt hlt
      simp only [List.find?_cons, hpred]
      simp only [List.foldl_cons, stringStep]
      by_cases hd : descSeverity d > s
      · rw [if_pos hd]
        exact ih (some d) (descSeverity d) hlt
      · rw [if_neg hd]
        exact ih c s h

/-- The inner loop over currentConditions equals the string loop over the
projected descriptions. -/
lemma inner_foldl_eq (l : List CurrentCondition) (st : Option String × ℕ) :
    l.foldl worstConditionStep st =
      (l.map fun cc => cc.conditionDescription).foldl stringStep st := by
  induction l generalizing st with
  | nil => rfl
  | cons cc l ih =>
    simp only [List.foldl_cons, List.map_cons]
    rw [ih]
    rfl

/-- The nested loops of getWorstCondition equal the string loop over the
flattened description list. -/
lemma outer_foldl_eq (conditions : List CdotCondition) (st : Option String × ℕ) :
    conditions.foldl
      (fun st condition => condition.properties.currentConditions.foldl worstConditionStep st)
      st = (allDescriptions conditions).foldl stringStep st := by
  induction conditions generalizing st with
  | nil => rfl
  | cons c cs ih =>
    simp only [List.foldl_cons, allDescriptions, List.map_cons, List.flatten_cons,
      List.foldl_append]
    rw [ih, inner_foldl_eq]
    rfl

/-- C8 (amended): getWorstCondition resolves the single most severe condition
under icy/ice > snow variants > slush > wet > dry with case-insensitive EXACT
matching against the vocabulary, prefers the first-seen literal text on ties,
and reports absence when the best match is dry or unrecognized. -/
theorem getWorstCondition_exact_match :
    ∀ conditions,
      getWorstCondition conditions = specWorstCondition (allDescriptions conditions) := by
  intro conds
  unfold getWorstCondition specWorstCondition
  rw [outer_foldl_eq]
  rcases Nat.eq_zero_or_pos (maxSeverity (allDescriptions conds)) with h0 | hpos
  · rw [stringLoop_stay _ none 0 (Nat.le_of_eq h0)]
    dsimp only
    rw [if_pos (by omega : (0:ℕ) ≤ 1), if_pos (by omega : maxSeverity (allDescriptions conds) ≤ 1)]
  · rw [stringLoop_find _ none 0 hpos]

/-- C8 counterexample: the description "Icy Spots" contains the canonical
label "icy" as a substring, so substring matching would rank it most severe
and return it; the code's exact dictionary lookup does not recognize it and
returns no condition. -/
theorem getWorstCondition_substring_counterexample :
    getWorstCondition [⟨⟨"I-70", 213, 218, [⟨"Icy Spots"⟩]⟩⟩] = none ∧
    jsIncludes (strToLower "Icy Spots") "icy" = true := by
  exact ⟨by decide, by decide⟩
